/-
Verification of the Gonka.ai inference-gateway components against their
specification.  Each Python module relevant to the claims is shallowly
embedded as executable Lean definitions; machine time values are modelled
as rationals, Python dicts as association lists or functions into Option,
and fallible paths as explicit error values.
-/
import Mathlib

/-! ## Session store (agent/sessions.py)

Messages are dicts with a `role` key; only the role and the identity of a
message matter to the session-manager logic, so a message is a role plus an
opaque body. -/

/-- A chat message as stored in a session: `{"role": ..., ...}`.  The body
stands for all remaining dict entries. -/
structure SMsg where
  role : String
  body : String
deriving DecidableEq, Repr

/-- `m.get("role") == "system"`. -/
def isSystem (m : SMsg) : Bool := m.role == "system"

/-- Python list slice `l[-keep:]` where `keep` is a Python int.
For `keep > 0` this is the suffix of length `min keep (length l)`;
for `keep = 0` the start index is `-0 = 0`, so the WHOLE list is returned;
for `keep < 0` the start index is the positive number `-keep`, clamped. -/
def pySuffixSlice (l : List α) (keep : Int) : List α :=
  if 0 < keep then l.drop (l.length - keep.toNat) else l.drop (-keep).toNat

/-- `SessionManager.append_messages` (sessions.py lines 82-90), acting on the
session's message list: extend, then if the length exceeds `max_history`,
rebuild as `system_msgs + non_system[-keep:]` with
`keep = max_history - len(system_msgs)`. -/
def trimAppend (maxHistory : Nat) (old new : List SMsg) : List SMsg :=
  let m := old ++ new
  if maxHistory < m.length then
    let sys := m.filter isSystem
    let nonSys := m.filter (fun x => !(isSystem x))
    sys ++ pySuffixSlice nonSys ((maxHistory : Int) - (sys.length : Int))
  else m

/-- `SessionManager.inject_history` (sessions.py lines 159-171), acting on the
already-fetched history list: empty history returns the request unchanged,
otherwise `system_msgs + history_msgs + new_msgs`. -/
def injectHistoryList (history req : List SMsg) : List SMsg :=
  if history.isEmpty then req
  else
    req.filter isSystem
      ++ history.filter (fun m => !(isSystem m))
      ++ req.filter (fun m => !(isSystem m))

/-- The `Session` dataclass (timestamps are seconds as rationals). -/
structure Session where
  messages : List SMsg
  created_at : ℚ
  last_accessed : ℚ
  api_key : String
deriving DecidableEq

/-- `session.touch()`. -/
def Session.touch (s : Session) (now : ℚ) : Session :=
  { s with last_accessed := now }

/-- The `_sessions` dict, as a function from session id to optional session. -/
def Store : Type := String → Option Session

/-- `self._sessions[sid] = s`. -/
def storeSet (store : Store) (sid : String) (s : Session) : Store :=
  fun k => if k == sid then some s else store k

/-- `del self._sessions[sid]`. -/
def storeDel (store : Store) (sid : String) : Store :=
  fun k => if k == sid then none else store k

/-- `SessionManager.get` (sessions.py lines 63-73): return the session only
when `idle_seconds < ttl` (touching it); an expired session is deleted
inline; a fresh session is returned touched. -/
def smGet (ttl now : ℚ) (store : Store) (sid : String) :
    Option Session × Store :=
  match store sid with
  | none => (none, store)
  | some s =>
    if now - s.last_accessed < ttl then
      (some (s.touch now), storeSet store sid (s.touch now))
    else
      (none, storeDel store sid)

/-- `SessionManager.get_or_create` (sessions.py lines 53-61): no expiry check;
an existing session is touched and returned, a missing one is created. -/
def smGetOrCreate (now : ℚ) (store : Store) (sid key : String) :
    Session × Store :=
  match store sid with
  | some s => (s.touch now, storeSet store sid (s.touch now))
  | none =>
    let s : Session :=
      { messages := [], created_at := now, last_accessed := now, api_key := key }
    (s, storeSet store sid s)

/-- `SessionManager.get_history` (sessions.py lines 92-99): no expiry check;
returns a copy of the stored messages (touching the session), or `[]`. -/
def smGetHistory (now : ℚ) (store : Store) (sid : String) :
    List SMsg × Store :=
  match store sid with
  | some s => (s.messages, storeSet store sid (s.touch now))
  | none => ([], store)

/-- `SessionManager.inject_history` at the store level: fetch the history via
`get_history`, then merge with `injectHistoryList`. -/
def smInjectHistory (now : ℚ) (store : Store) (sid : String)
    (req : List SMsg) : List SMsg × Store :=
  let h := smGetHistory now store sid
  (injectHistoryList h.1 req, h.2)

/-! ## Rate limiter (gateway/rate_limit.py) -/

/-- Pruning done by `WindowCounter.request_count`: keep timestamps with
`t > now - window` (window = 60.0 seconds). -/
def pruneWindow (now : ℚ) (ts : List ℚ) : List ℚ :=
  ts.filter (fun t => now - 60 < t)

/-- Python `int(q)`: truncation toward zero. -/
def pyTrunc (q : ℚ) : ℤ := if 0 ≤ q then ⌊q⌋ else ⌈q⌉

/-- Python `min` of a list (callers guard against the empty list; the `[]`
value is never reached by `estimateRetryAfter`). -/
def listMin : List ℚ → ℚ
  | [] => 0
  | t :: ts => ts.foldl min t

/-- Python `max` of a list, same convention as `listMin`. -/
def listMax : List ℚ → ℚ
  | [] => 0
  | t :: ts => ts.foldl max t

/-- `RateLimiter._estimate_retry_after` (rate_limit.py lines 97-103):
`max(1, int(60.0 - (now - min(timestamps))) + 1)`, or 1 on an empty list. -/
def estimateRetryAfter (now : ℚ) (ts : List ℚ) : ℤ :=
  if ts.isEmpty then 1
  else max 1 (pyTrunc (60 - (now - listMin ts)) + 1)

/-- Outcome of `RateLimiter.check_request`: either an HTTPException with a
status, an error code and a Retry-After header, or acceptance; both carry
the counter's timestamp list as left after the call. -/
inductive CheckResult where
  | rejected (status : Nat) (code : String) (retryAfter : ℤ) (timestamps : List ℚ)
  | accepted (timestamps : List ℚ)
deriving DecidableEq, Repr

/-- `RateLimiter.check_request` (rate_limit.py lines 47-66): prune and count;
if `count >= rpm_limit` raise 429 `"rate_limit_exceeded"` with the estimated
Retry-After, else append `now`. -/
def checkRequest (now : ℚ) (ts : List ℚ) (rpmLimit : Nat) : CheckResult :=
  let pruned := pruneWindow now ts
  if rpmLimit ≤ pruned.length then
    .rejected 429 "rate_limit_exceeded" (estimateRetryAfter now pruned) pruned
  else
    .accepted (pruned ++ [now])

/-- The Retry-After formula as the CLAIM words it:
`ceil(60 - (now - oldest_in_window)) + 1`, floored at 1. -/
def specRetryCeil (now oldest : ℚ) : ℤ :=
  max 1 (⌈60 - (now - oldest)⌉ + 1)

/-! ## Model tiering (agent/tiering.py) -/

/-- One part of a structured (multimodal) content list:
`{"type": ..., "text": ...}`. -/
structure TPart where
  ptype : String
  text : String
deriving DecidableEq, Repr

/-- A chat message as seen by tiering: its `content` is a string, a list of
parts, or some other JSON value (neither branch of the isinstance tests). -/
inductive TContent where
  | str (s : String)
  | parts (ps : List TPart)
  | other
deriving DecidableEq, Repr

/-- A request message for tiering purposes. -/
structure TMsg where
  role : String
  content : TContent
deriving DecidableEq, Repr

/-- `" ".join(part.get("text", "") for part in content if part.get("type") == "text")`. -/
def joinTextParts (ps : List TPart) : String :=
  String.intercalate " " ((ps.filter (fun p => p.ptype == "text")).map (fun p => p.text))

/-- Scan of `reversed(messages)` in `_get_last_user_message`: the first user
message with string content yields it, with list content yields the joined
text parts; user messages with other content fall through the if/elif and
the scan continues. -/
def lastUserAux : List TMsg → String
  | [] => ""
  | m :: rest =>
    if m.role == "user" then
      match m.content with
      | .str s => s
      | .parts ps => joinTextParts ps
      | .other => lastUserAux rest
    else lastUserAux rest

/-- `ModelTiering._get_last_user_message` (tiering.py lines 114-128). -/
def getLastUserMessage (messages : List TMsg) : String :=
  lastUserAux messages.reverse

/-- A tiering rule; the compiled case-insensitive regex search
`rule.compiled.search(text)` is abstracted as a Boolean matcher on the text. -/
structure TRule where
  matcher : String → Bool
  route_to : String

/-- The `TieringConfig` dataclass. -/
structure TieringConfig where
  classification_model : String
  reasoning_model : String
  default_model : String
  rules : List TRule

/-- `ModelTiering._resolve_tier` (tiering.py lines 102-112): the six
recognized names map to the configured models, anything else to `""`. -/
def resolveTier (cfg : TieringConfig) (tier : String) : String :=
  if tier == "classification_model" || tier == "classification" then
    cfg.classification_model
  else if tier == "reasoning_model" || tier == "reasoning" then
    cfg.reasoning_model
  else if tier == "default_model" || tier == "default" then
    cfg.default_model
  else ""

/-- The rule loop of `resolve_model` (tiering.py lines 93-97): the first rule
whose matcher accepts the text AND whose tier target resolves to a non-empty
model wins; a matching rule with an empty target is skipped. -/
def findRuleModel (cfg : TieringConfig) : List TRule → String → Option String
  | [], _ => none
  | r :: rs, s =>
    if r.matcher s && (resolveTier cfg r.route_to != "") then
      some (resolveTier cfg r.route_to)
    else findRuleModel cfg rs s

/-- `ModelTiering.resolve_model` (tiering.py lines 71-100).  `""` stands for
an absent/empty `requested_model` or `tier_hint` (Python truthiness). -/
def resolveModel (cfg : TieringConfig) (messages : List TMsg)
    (requestedModel tierHint : String) : String :=
  if tierHint != "" && (resolveTier cfg tierHint != "") then
    resolveTier cfg tierHint
  else if requestedModel != "" then requestedModel
  else
    match (if getLastUserMessage messages != "" then
        findRuleModel cfg cfg.rules (getLastUserMessage messages)
      else none) with
    | some m => m
    | none => cfg.default_model

/-! ## Streaming usage extraction (gateway/main.py, `_stream_response`) -/

/-- The `usage` field of a parsed SSE chunk: `absent` covers a missing or
falsy `usage` value (the code tests `if usage:`); `present t` is a truthy
usage object whose `total_tokens` entry is `t` (possibly missing). -/
inductive UsageField where
  | absent
  | present (total : Option Int)
deriving DecidableEq, Repr

/-- One line of the backend SSE stream, after the `"data: "` framing:
lines without the prefix are passed through unparsed, `[DONE]` terminates,
a chunk either fails `json.loads` or parses with its usage field. -/
inductive SLine where
  | notData
  | done
  | malformed
  | chunk (usage : UsageField)
deriving DecidableEq, Repr

/-- The token-accumulation loop of `_stream_response` (main.py lines 220-235):
`total_tokens` starts at 0 and is OVERWRITTEN with `usage.get("total_tokens", 0)`
each time a chunk carries a truthy usage object; `[DONE]` stops the loop. -/
def streamTotal (acc : Int) : List SLine → Int
  | [] => acc
  | .done :: _ => acc
  | .chunk (.present t) :: rest => streamTotal (t.getD 0) rest
  | .chunk .absent :: rest => streamTotal acc rest
  | .malformed :: rest => streamTotal acc rest
  | .notData :: rest => streamTotal acc rest

/-- The token fields of the single `UsageRecord` written after the stream. -/
structure StreamUsage where
  input_tokens : Int
  output_tokens : Int
  total_tokens : Int
deriving DecidableEq, Repr

/-- The post-stream metering of `_stream_response` (main.py lines 248-257):
one record with `input_tokens = 0` and both token fields equal to the final
`total_tokens` accumulator. -/
def streamRecord (lines : List SLine) : StreamUsage :=
  { input_tokens := 0
    output_tokens := streamTotal 0 lines
    total_tokens := streamTotal 0 lines }

/-- The sequence of `usage.get("total_tokens", 0)` values observed while the
stream runs (stopping at `[DONE]`), in order. -/
def observedTotals : List SLine → List Int
  | [] => []
  | .done :: _ => []
  | .chunk (.present t) :: rest => t.getD 0 :: observedTotals rest
  | .chunk .absent :: rest => observedTotals rest
  | .malformed :: rest => observedTotals rest
  | .notData :: rest => observedTotals rest

/-- The LARGEST observed total, 0 if none — the value the claim says is
recorded. -/
def specMaxTotalSeen (lines : List SLine) : Int :=
  (observedTotals lines).foldl max 0

/-! ## Usage metering (gateway/metering.py) -/

/-- A row of the `usage` table. -/
structure URow where
  api_key : String
  model : String
  input_tokens : Int
  output_tokens : Int
  total_tokens : Int
  latency_ms : ℚ
  session_id : Option String
  timestamp : ℚ
deriving DecidableEq, Repr

/-- `COALESCE(AVG(latency_ms), 0)`: SQL AVG is SUM/COUNT, NULL (coalesced
to 0) on an empty slice. -/
def avgLatency (rows : List URow) : ℚ :=
  if rows.isEmpty then 0
  else (rows.map (fun r => r.latency_ms)).sum / (rows.length : ℚ)

/-- Result shape of `get_usage_by_key` (metering.py lines 94-107). -/
structure KeySummary where
  request_count : Nat
  total_input : Int
  total_output : Int
  total_tokens : Int
  avg_latency_ms : ℚ
deriving DecidableEq, Repr

/-- `UsageMeter.get_usage_by_key`: COUNT / COALESCE'd SUMs / COALESCE'd AVG
over rows with `api_key = ? AND timestamp > ?`. -/
def getUsageByKey (rows : List URow) (key : String) (since : ℚ) : KeySummary :=
  let m := rows.filter (fun r => r.api_key == key && since < r.timestamp)
  { request_count := m.length
    total_input := (m.map (fun r => r.input_tokens)).sum
    total_output := (m.map (fun r => r.output_tokens)).sum
    total_tokens := (m.map (fun r => r.total_tokens)).sum
    avg_latency_ms := avgLatency m }

/-- Result shape of `get_usage_by_session` (metering.py lines 122-137):
`MIN(timestamp)` and `MAX(timestamp)` are NOT wrapped in COALESCE, so on an
empty slice SQLite yields NULL — modelled as `none`. -/
structure SessionSummary where
  request_count : Nat
  total_input : Int
  total_output : Int
  total_tokens : Int
  avg_latency_ms : ℚ
  first_request : Option ℚ
  last_request : Option ℚ
deriving DecidableEq, Repr

/-- `UsageMeter.get_usage_by_session`: aggregates over rows with
`session_id = ?` (a NULL session_id never matches). -/
def getUsageBySession (rows : List URow) (sid : String) : SessionSummary :=
  let m := rows.filter (fun r => r.session_id == some sid)
  { request_count := m.length
    total_input := (m.map (fun r => r.input_tokens)).sum
    total_output := (m.map (fun r => r.output_tokens)).sum
    total_tokens := (m.map (fun r => r.total_tokens)).sum
    avg_latency_ms := avgLatency m
    first_request := if m.isEmpty then none else some (listMin (m.map (fun r => r.timestamp)))
    last_request := if m.isEmpty then none else some (listMax (m.map (fun r => r.timestamp))) }

/-! ## API-key auth (gateway/auth.py) -/

/-- The `APIKey` dataclass; the key string is kept as a character list so
that substring occurrence can be stated. -/
structure AKey where
  key : List Char
  owner : String
  tier : String
  rpm_limit : Int
  tpm_limit : Int
  created_at : ℚ
  active : Bool
deriving DecidableEq, Repr

/-- The masking expression of `list_keys` (auth.py line 93):
`k.key[:8] + "..." + k.key[-4:]` (Python `[-4:]` on a string shorter than 4
characters is the whole string, i.e. `drop (length - 4)`). -/
def maskKey (k : List Char) : List Char :=
  k.take 8 ++ ['.', '.', '.'] ++ k.drop (k.length - 4)

/-- One record returned by `AuthManager.list_keys`. -/
structure MaskedKey where
  key : List Char
  owner : String
  tier : String
  active : Bool
  created_at : ℚ
deriving DecidableEq, Repr

/-- `AuthManager.list_keys` (auth.py lines 90-100). -/
def listKeys (ks : List AKey) : List MaskedKey :=
  ks.map (fun k =>
    { key := maskKey k.key, owner := k.owner, tier := k.tier,
      active := k.active, created_at := k.created_at })

/-- `needle` occurs contiguously inside `hay` (the full key being readable
from the masked record). -/
def containsSeq (needle hay : List Char) : Prop :=
  ∃ s t, s ++ needle ++ t = hay

/-! ## Model router reload (gateway/router.py) -/

/-- A parsed YAML value, as returned by `yaml.safe_load`. -/
inductive Yaml where
  | nullv
  | str (s : String)
  | num (n : Int)
  | list (xs : List Yaml)
  | dict (kvs : List (String × Yaml))

/-- `d.get(k, default)` on a parsed YAML mapping. -/
def yGet (kvs : List (String × Yaml)) (k : String) (dflt : Yaml) : Yaml :=
  match kvs.lookup k with
  | some v => v
  | none => dflt

/-- The `ModelBackend` dataclass; Python performs no type checking on the
values pulled out of the YAML entry, so every field is a raw YAML value. -/
structure ModelBackend where
  name : String
  display_name : Yaml
  provider : Yaml
  model_id : Yaml
  tier : Yaml
  backend_url : Yaml
  capabilities : Yaml
  context_length : Yaml
  pricing : Yaml

/-- Construction of one backend from a well-formed (dict) model entry
(router.py lines 48-58); this never raises. -/
def buildBackend (name : String) (entry : List (String × Yaml)) : ModelBackend :=
  { name := name
    display_name := yGet entry "display_name" (.str name)
    provider := yGet entry "provider" (.str "unknown")
    model_id := yGet entry "model_id" (.str name)
    tier := yGet entry "tier" (.str "standard")
    backend_url := yGet entry "backend_url" (.str "http://localhost:8000")
    capabilities := yGet entry "capabilities" (.list [.str "chat"])
    context_length := yGet entry "context_length" (.num 4096)
    pricing := yGet entry "pricing" (.dict []) }

/-- A Python exception escaping `reload`. -/
inductive PyErr where
  | ioError
  | yamlError
  | attrError
deriving DecidableEq, Repr

/-- What reading + `yaml.safe_load` of the configuration source yields:
the file may be missing, `open`/read may raise, the YAML may fail to parse,
or a document is produced. -/
inductive ConfigSource where
  | missing
  | readError
  | parseError
  | parsed (doc : Yaml)

/-- The registration loop of `reload` (router.py lines 47-58): each entry
must be a mapping for `model_config.get` to work; a non-mapping entry
raises AttributeError mid-loop, leaving the partially rebuilt map. -/
def buildBackends : List (String × Yaml) →
    List (String × ModelBackend) → Option PyErr × List (String × ModelBackend)
  | [], acc => (none, acc)
  | (name, .dict e) :: rest, acc => buildBackends rest (acc ++ [(name, buildBackend name e)])
  | (_, _) :: _, acc => (some .attrError, acc)

/-- `ModelRouter.reload` (router.py lines 37-58).  Result: the exception
escaping the call (if any) and the `_backends` map afterwards.  A missing
file returns early; a read or parse failure raises BEFORE the map is
touched; once parsing succeeds the map is CLEARED first (line 46), so a
document on which `config.get("models", {})` or `.items()` then raises
(a non-mapping document or models section) leaves the map empty. -/
def reload (src : ConfigSource) (backends : List (String × ModelBackend)) :
    Option PyErr × List (String × ModelBackend) :=
  match src with
  | .missing => (none, backends)
  | .readError => (some .ioError, backends)
  | .parseError => (some .yamlError, backends)
  | .parsed doc =>
    match doc with
    | .dict kvs =>
      match yGet kvs "models" (.dict []) with
      | .dict models => buildBackends models []
      | _ => (some .attrError, [])
    | _ => (some .attrError, [])

/-- A configuration source whose `models` section is a mapping of
well-formed (dict) entries — the shape on which `reload` succeeds. -/
def mkModelsSrc (ms : List (String × List (String × Yaml))) : ConfigSource :=
  .parsed (.dict [("models", .dict (ms.map (fun p => (p.1, Yaml.dict p.2))))])

/-! ## Claim C1 — append_messages truncation invariant -/

/-- Filtering a list by a predicate and by its negation partitions it. -/
theorem filterPartitionLength (p : α → Bool) (l : List α) :
    (l.filter p).length + (l.filter (fun x => !(p x))).length = l.length := by
  induction l with
  | nil => rfl
  | cons a l ih =>
    cases h : p a <;> simp [List.filter_cons, h] <;> omega

/-- Any suffix of the non-system messages contains no system message. -/
theorem filter_drop_nonsys (l : List SMsg) (n : Nat) :
    ((l.filter (fun x => !(isSystem x))).drop n).filter isSystem = [] := by
  rw [List.filter_eq_nil_iff]
  intro a ha
  have hmem : a ∈ l.filter (fun x => !(isSystem x)) :=
    List.mem_of_mem_drop ha
  have := (List.mem_filter.mp hmem).2
  simp_all

/-- C1: after `append_messages`, PROVIDED the combined list holds strictly
fewer than `MAX_HISTORY` system messages, the session's message count is at
most `MAX_HISTORY`, every system message present before the append survives
in its original relative order, and on overflow the result is the system
messages in order followed by the last `MAX_HISTORY - #system` non-system
messages in order.  (The proviso is forced: with `#system ≥ MAX_HISTORY` the
Python slice `non_system[-keep:]` with `keep ≤ 0` keeps messages it should
drop — see the counterexample.) -/
theorem C1_append_truncation (maxH : Nat) (old new : List SMsg)
    (hsys : ((old ++ new).filter isSystem).length < maxH) :
    (trimAppend maxH old new).length ≤ maxH
    ∧ List.Sublist (old.filter isSystem) (trimAppend maxH old new)
    ∧ (maxH < (old ++ new).length →
        trimAppend maxH old new
          = (old ++ new).filter isSystem
            ++ ((old ++ new).filter (fun x => !(isSystem x))).drop
                (((old ++ new).filter (fun x => !(isSystem x))).length
                  - (maxH - ((old ++ new).filter isSystem).length))) := by
  have hpart := filterPartitionLength isSystem (old ++ new)
  by_cases hover : maxH < (old ++ new).length
  · have hkeep :
        pySuffixSlice ((old ++ new).filter (fun x => !(isSystem x)))
            ((maxH : Int) - (((old ++ new).filter isSystem).length : Int))
          = ((old ++ new).filter (fun x => !(isSystem x))).drop
              (((old ++ new).filter (fun x => !(isSystem x))).length
                - (maxH - ((old ++ new).filter isSystem).length)) := by
      rw [pySuffixSlice, if_pos (by omega)]
      congr 1
      omega
    have heq : trimAppend maxH old new
        = (old ++ new).filter isSystem
          ++ ((old ++ new).filter (fun x => !(isSystem x))).drop
              (((old ++ new).filter (fun x => !(isSystem x))).length
                - (maxH - ((old ++ new).filter isSystem).length)) := by
      rw [trimAppend]
      simp only [if_pos hover]
      exact congrArg _ hkeep
    refine ⟨?_, ?_, fun _ => heq⟩
    · rw [heq, List.length_append, List.length_drop]
      omega
    · rw [heq, List.filter_append]
      exact ((List.sublist_append_left _ _).trans
        (List.sublist_append_left _ _))
  · have heq : trimAppend maxH old new = old ++ new := by
      rw [trimAppend]
      simp only [if_neg hover]
    refine ⟨?_, ?_, fun h => absurd h hover⟩
    · rw [heq]; omega
    · rw [heq]
      exact (List.filter_sublist old).trans (List.sublist_append_left old new)

/-- Concrete messages used by witnesses and counterexamples. -/
def msgSys : SMsg := { role := "system", body := "a" }

/-- A concrete user message. -/
def msgU1 : SMsg := { role := "user", body := "b" }

/-- A concrete user message. -/
def msgU2 : SMsg := { role := "user", body := "c" }

/-- A concrete user message. -/
def msgU3 : SMsg := { role := "user", body := "d" }

/-- C1 counterexample: with `MAX_HISTORY = 1`, appending a system and a user
message leaves TWO messages — `keep = 1 - 1 = 0` and the Python slice
`non_system[-0:]` is the whole list, so the claimed bound
`|messages| <= MAX_HISTORY` fails. -/
theorem C1_counterexample :
    ¬ ((trimAppend 1 [] [msgSys, msgU1]).length ≤ 1) := by
  decide

/-- C1 witness: `MAX_HISTORY = 3`, history `[system a, user b, user c]`,
appending `[user d]` overflows; the trimmed session is
`[system a, user c, user d]`. -/
theorem C1_append_truncation_witness :
    ((([msgSys, msgU1, msgU2] : List SMsg) ++ [msgU3]).filter isSystem).length < 3
    ∧ ((trimAppend 3 [msgSys, msgU1, msgU2] [msgU3]).length ≤ 3
      ∧ List.Sublist (([msgSys, msgU1, msgU2] : List SMsg).filter isSystem)
          (trimAppend 3 [msgSys, msgU1, msgU2] [msgU3])
      ∧ (3 < (([msgSys, msgU1, msgU2] : List SMsg) ++ [msgU3]).length →
          trimAppend 3 [msgSys, msgU1, msgU2] [msgU3]
            = (([msgSys, msgU1, msgU2] : List SMsg) ++ [msgU3]).filter isSystem
              ++ ((([msgSys, msgU1, msgU2] : List SMsg) ++ [msgU3]).filter
                    (fun x => !(isSystem x))).drop
                  (((([msgSys, msgU1, msgU2] : List SMsg) ++ [msgU3]).filter
                      (fun x => !(isSystem x))).length
                    - (3 - ((([msgSys, msgU1, msgU2] : List SMsg)
                        ++ [msgU3]).filter isSystem).length)))) :=
  ⟨by decide, C1_append_truncation 3 [msgSys, msgU1, msgU2] [msgU3] (by decide)⟩

/-! ## Claim C2 — inject_history merge shape -/

/-- C2 (amended): for a NON-EMPTY stored history `H`, `inject_history`
returns the system messages of the incoming list, then the non-system
messages of `H`, then the non-system messages of the incoming list; for an
empty history it returns the incoming list verbatim (which need not match
the merge formula when a system message is not in front). -/
theorem C2_inject_merge (H I : List SMsg) :
    (H ≠ [] →
      injectHistoryList H I
        = I.filter isSystem
          ++ H.filter (fun m => !(isSystem m))
          ++ I.filter (fun m => !(isSystem m)))
    ∧ (H = [] → injectHistoryList H I = I) := by
  constructor
  · intro hne
    rw [injectHistoryList, if_neg (by simpa using hne)]
  · intro h
    subst h
    rfl

/-- C2 counterexample: with `H = []` and `I = [user b, system a]` the code
returns `I` itself, but the claimed merge formula would reorder it to
`[system a, user b]`; the two clauses of the claim conflict. -/
theorem C2_counterexample :
    injectHistoryList [] [msgU1, msgSys]
      ≠ ([msgU1, msgSys] : List SMsg).filter isSystem
          ++ ([] : List SMsg).filter (fun m => !(isSystem m))
          ++ ([msgU1, msgSys] : List SMsg).filter (fun m => !(isSystem m)) := by
  decide

/-- C2 witness: history `[user c]`, incoming `[system a, user b]` merges to
`[system a, user c, user b]`; empty history returns the incoming list. -/
theorem C2_inject_merge_witness :
    (injectHistoryList [msgU2] [msgSys, msgU1]
      = ([msgSys, msgU1] : List SMsg).filter isSystem
        ++ ([msgU2] : List SMsg).filter (fun m => !(isSystem m))
        ++ ([msgSys, msgU1] : List SMsg).filter (fun m => !(isSystem m)))
    ∧ injectHistoryList [] [msgSys, msgU1] = [msgSys, msgU1] :=
  ⟨(C2_inject_merge [msgU2] [msgSys, msgU1]).1 (by decide),
   (C2_inject_merge [] [msgSys, msgU1]).2 rfl⟩

/-! ## Claim C3 — check_request and Retry-After -/

/-- On a non-empty window the estimate is `max(1, int(wait) + 1)`. -/
theorem estimateRetryAfter_nonempty (now : ℚ) (l : List ℚ) (h : l ≠ []) :
    estimateRetryAfter now l = max 1 (pyTrunc (60 - (now - listMin l)) + 1) := by
  rw [estimateRetryAfter, if_neg]
  intro hh
  exact h (List.isEmpty_iff.mp hh)

/-- C3 (amended): after pruning, a count at or above the limit rejects with
HTTP 429, code `"rate_limit_exceeded"`, and a Retry-After of
`int(60 - (now - oldest_in_window)) + 1` floored at 1 — Python `int`, i.e.
TRUNCATION toward zero, not the ceiling the claim states; below the limit
the call appends `now` to the pruned timestamp list. -/
theorem C3_check_request (now : ℚ) (ts : List ℚ) (limit : Nat)
    (hlim : 0 < limit) :
    (limit ≤ (pruneWindow now ts).length →
      checkRequest now ts limit
        = .rejected 429 "rate_limit_exceeded"
            (max 1 (pyTrunc (60 - (now - listMin (pruneWindow now ts))) + 1))
            (pruneWindow now ts))
    ∧ ((pruneWindow now ts).length < limit →
      checkRequest now ts limit = .accepted (pruneWindow now ts ++ [now])) := by
  constructor
  · intro h
    have hne : pruneWindow now ts ≠ [] := by
      intro hp
      rw [hp] at h
      simp at h
      omega
    rw [checkRequest]
    simp only [if_pos h]
    rw [estimateRetryAfter_nonempty now _ hne]
  · intro h
    rw [checkRequest]
    simp only [if_neg (by omega : ¬ limit ≤ (pruneWindow now ts).length)]

/-- C3 counterexample: one request at `t = 9.5`, limit 1, checked at
`t = 10`: the wait is `59.5` seconds and the code answers Retry-After
`int(59.5) + 1 = 60`, while the claim's formula `ceil(59.5) + 1` gives 61. -/
theorem C3_counterexample :
    checkRequest 10 [19/2] 1
      = .rejected 429 "rate_limit_exceeded" 60 [19/2]
    ∧ specRetryCeil 10 (19/2) = 61 := by
  constructor
  · norm_num [checkRequest, pruneWindow, estimateRetryAfter, pyTrunc,
      listMin, List.filter]
  · have h : ⌈(119 : ℚ)/2⌉ = 60 := by
      rw [Int.ceil_eq_iff]
      norm_num
    rw [specRetryCeil]
    norm_num [h]

/-- C3 witness: the same window rejects at limit 1 with the truncated
Retry-After and accepts at limit 2, recording the new timestamp. -/
theorem C3_check_request_witness :
    (checkRequest 10 [19/2] 1
      = .rejected 429 "rate_limit_exceeded"
          (max 1 (pyTrunc (60 - (10 - listMin (pruneWindow 10 [19/2]))) + 1))
          (pruneWindow 10 [19/2]))
    ∧ checkRequest 10 [19/2] 2 = .accepted (pruneWindow 10 [19/2] ++ [10]) :=
  ⟨(C3_check_request 10 [19/2] 1 (by decide)).1
     (by norm_num [pruneWindow, List.filter]),
   (C3_check_request 10 [19/2] 2 (by decide)).2
     (by norm_num [pruneWindow, List.filter])⟩

/-! ## Claim C4 — router reload error handling -/

/-- The registration loop succeeds on a list of well-formed (dict) entries,
appending the built backends in order. -/
theorem buildBackends_map (ms : List (String × List (String × Yaml)))
    (acc : List (String × ModelBackend)) :
    buildBackends (ms.map (fun p => (p.1, Yaml.dict p.2))) acc
      = (none, acc ++ ms.map (fun p => (p.1, buildBackend p.1 p.2))) := by
  induction ms generalizing acc with
  | nil => simp [buildBackends]
  | cons p rest ih => simp [buildBackends, ih]

/-- C4 (amended): a MISSING configuration file leaves the backend map intact
and raises nothing; a read or YAML-parse failure leaves the map intact but
the exception PROPAGATES (nothing is swallowed); a document that parses but
is not a mapping (e.g. an empty file, which parses to null) raises AFTER the
map has been cleared, destroying it; only a well-shaped document replaces
the map — by clearing and repopulating, not by an atomic swap. -/
theorem C4_reload_cases (m : List (String × ModelBackend))
    (ms : List (String × List (String × Yaml))) :
    reload .missing m = (none, m)
    ∧ reload .readError m = (some .ioError, m)
    ∧ reload .parseError m = (some .yamlError, m)
    ∧ reload (.parsed .nullv) m = (some .attrError, [])
    ∧ reload (mkModelsSrc ms) m
        = (none, ms.map (fun p => (p.1, buildBackend p.1 p.2))) := by
  refine ⟨rfl, rfl, rfl, rfl, ?_⟩
  simp [reload, mkModelsSrc, yGet, buildBackends_map]

/-- A concrete backend entry (all fields defaulted). -/
def backendEx : ModelBackend := buildBackend "llama" []

/-- C4 counterexample: a YAML parse failure makes `reload` raise (the error
is NOT swallowed), and a source that parses to null (an empty file) clears
the previously non-empty backend map before raising. -/
theorem C4_counterexample :
    (reload .parseError [("llama", backendEx)]).1 ≠ none
    ∧ reload (.parsed .nullv) [("llama", backendEx)] = (some .attrError, [])
    ∧ [("llama", backendEx)] ≠ ([] : List (String × ModelBackend)) := by
  refine ⟨?_, rfl, ?_⟩
  · simp [reload]
  · simp

/-! ## Claim C5 — resolve_model priority order -/

/-- The rule loop returns the FIRST rule that matches and whose tier target
resolves to a non-empty model, skipping earlier rules that fail either
test. -/
theorem findRuleModel_first (cfg : TieringConfig) (rs₁ rs₂ : List TRule)
    (r : TRule) (s : String)
    (hskip : ∀ r' ∈ rs₁,
      ¬(r'.matcher s = true ∧ resolveTier cfg r'.route_to ≠ ""))
    (hm : r.matcher s = true) (hne : resolveTier cfg r.route_to ≠ "") :
    findRuleModel cfg (rs₁ ++ r :: rs₂) s = some (resolveTier cfg r.route_to) := by
  induction rs₁ with
  | nil =>
    rw [List.nil_append, findRuleModel, if_pos]
    simp [hm, hne]
  | cons r' rest ih =>
    rw [List.cons_append, findRuleModel, if_neg]
    · exact ih (fun x hx => hskip x (List.mem_cons_of_mem r' hx))
    · intro hcond
      rw [Bool.and_eq_true] at hcond
      exact hskip r' (List.mem_cons_self r' rest)
        ⟨hcond.1, by simpa using hcond.2⟩

/-- C5 (amended): the resolution priority holds as claimed, EXCEPT that the
rule pass (step 3) only runs when the extracted content of the most recent
user message is a non-empty string — an empty content (or no user message
at all) skips the rules entirely, even for a rule whose regex matches the
empty string.  The conjuncts: the six recognized tier hints and only those
resolve; a recognized non-empty hint wins; otherwise a non-empty requested
model is returned unchanged; otherwise, with non-empty content, the first
rule that matches it and resolves non-empty wins; otherwise the configured
default (possibly empty) is returned; and content extraction takes the last
user message's string content, or the joined text parts of a list. -/
theorem C5_resolve_priority (cfg : TieringConfig) (messages : List TMsg)
    (req hint : String) :
    (resolveTier cfg "classification" = cfg.classification_model
      ∧ resolveTier cfg "classification_model" = cfg.classification_model
      ∧ resolveTier cfg "reasoning" = cfg.reasoning_model
      ∧ resolveTier cfg "reasoning_model" = cfg.reasoning_model
      ∧ resolveTier cfg "default" = cfg.default_model
      ∧ resolveTier cfg "default_model" = cfg.default_model)
    ∧ (∀ t, t ≠ "classification" → t ≠ "classification_model"
        → t ≠ "reasoning" → t ≠ "reasoning_model"
        → t ≠ "default" → t ≠ "default_model" → resolveTier cfg t = "")
    ∧ (hint ≠ "" → resolveTier cfg hint ≠ "" →
        resolveModel cfg messages req hint = resolveTier cfg hint)
    ∧ ((hint = "" ∨ resolveTier cfg hint = "") → req ≠ "" →
        resolveModel cfg messages req hint = req)
    ∧ ((hint = "" ∨ resolveTier cfg hint = "") → req = "" →
        getLastUserMessage messages ≠ "" →
        ∀ rs₁ r rs₂, cfg.rules = rs₁ ++ r :: rs₂ →
          (∀ r' ∈ rs₁, ¬(r'.matcher (getLastUserMessage messages) = true
              ∧ resolveTier cfg r'.route_to ≠ "")) →
          r.matcher (getLastUserMessage messages) = true →
          resolveTier cfg r.route_to ≠ "" →
          resolveModel cfg messages req hint = resolveTier cfg r.route_to)
    ∧ ((hint = "" ∨ resolveTier cfg hint = "") → req = "" →
        (getLastUserMessage messages = ""
          ∨ findRuleModel cfg cfg.rules (getLastUserMessage messages) = none) →
        resolveModel cfg messages req hint = cfg.default_model)
    ∧ (∀ (ms : List TMsg) (s : String),
        getLastUserMessage (ms ++ [{ role := "user", content := .str s }]) = s)
    ∧ (∀ (ms : List TMsg) (ps : List TPart),
        getLastUserMessage (ms ++ [{ role := "user", content := .parts ps }])
          = joinTextParts ps) := by
  refine ⟨⟨rfl, rfl, rfl, rfl, rfl, rfl⟩, ?_, ?_, ?_, ?_, ?_, ?_, ?_⟩
  · intro t h1 h2 h3 h4 h5 h6
    rw [resolveTier]
    rw [if_neg (by simp [h1, h2]), if_neg (by simp [h3, h4]),
      if_neg (by simp [h5, h6])]
  · intro h1 h2
    rw [resolveModel, if_pos (by simp [h1, h2])]
  · intro hfall hreq
    have hcond : ¬((hint != "") && (resolveTier cfg hint != "")) = true := by
      rcases hfall with h | h <;> simp [h]
    rw [resolveModel, if_neg hcond, if_pos (by simp [hreq])]
  · intro hfall hreq hcontent rs₁ r rs₂ hrules hskip hm hne
    have hcond : ¬((hint != "") && (resolveTier cfg hint != "")) = true := by
      rcases hfall with h | h <;> simp [h]
    have hfind : findRuleModel cfg cfg.rules (getLastUserMessage messages)
        = some (resolveTier cfg r.route_to) := by
      rw [hrules]
      exact findRuleModel_first cfg rs₁ rs₂ r _ hskip hm hne
    rw [resolveModel, if_neg hcond, if_neg (by simp [hreq]),
      if_pos (by simp [hcontent]), hfind]
  · intro hfall hreq hnone
    have hcond : ¬((hint != "") && (resolveTier cfg hint != "")) = true := by
      rcases hfall with h | h <;> simp [h]
    rcases hnone with h | h
    · rw [resolveModel, if_neg hcond, if_neg (by simp [hreq]),
        if_neg (by simp [h])]
    · by_cases hc : getLastUserMessage messages = ""
      · rw [resolveModel, if_neg hcond, if_neg (by simp [hreq]),
          if_neg (by simp [hc])]
      · rw [resolveModel, if_neg hcond, if_neg (by simp [hreq]),
          if_pos (by simp [hc]), h]
  · intro ms s
    simp [getLastUserMessage, List.reverse_append, lastUserAux]
  · intro ms ps
    simp [getLastUserMessage, List.reverse_append, lastUserAux]

/-- A rule whose regex matches everything (pattern `.*`), routed to the
reasoning tier. -/
def rC5 : TRule := { matcher := fun _ => true, route_to := "reasoning" }

/-- A tiering config with only the reasoning model configured and the single
match-anything rule. -/
def cfgC5 : TieringConfig :=
  { classification_model := "", reasoning_model := "strong",
    default_model := "", rules := [rC5] }

/-- A request whose most recent user message has EMPTY string content. -/
def msgsC5 : List TMsg := [{ role := "user", content := .str "" }]

/-- C5 counterexample: no hint, no requested model, and a match-anything rule
routed to the non-empty reasoning model `"strong"` — the claim's step (3)
demands `"strong"`, but because the last user message's content is the empty
string the code skips the rule pass and falls through to the empty default. -/
theorem C5_counterexample :
    resolveModel cfgC5 msgsC5 "" "" = ""
    ∧ rC5.matcher (getLastUserMessage msgsC5) = true
    ∧ resolveTier cfgC5 rC5.route_to = "strong"
    ∧ cfgC5.rules = [rC5] :=
  ⟨rfl, rfl, rfl, rfl⟩

/-- C5 witness: on a concrete config, hint `"reasoning"` wins over a
requested model; with no hint the requested model is returned; with neither,
content `"hi"` triggers the match-anything rule yielding `"strong"`; and
with empty content the empty default is returned. -/
theorem C5_resolve_priority_witness :
    resolveModel cfgC5 msgsC5 "m0" "reasoning" = resolveTier cfgC5 "reasoning"
    ∧ resolveModel cfgC5 msgsC5 "m0" "" = "m0"
    ∧ resolveModel cfgC5 [{ role := "user", content := .str "hi" }] "" ""
        = resolveTier cfgC5 rC5.route_to
    ∧ resolveModel cfgC5 msgsC5 "" "" = cfgC5.default_model :=
  ⟨(C5_resolve_priority cfgC5 msgsC5 "m0" "reasoning").2.2.1
      (by decide) (by decide),
   (C5_resolve_priority cfgC5 msgsC5 "m0" "").2.2.2.1
      (Or.inl rfl) (by decide),
   (C5_resolve_priority cfgC5 [{ role := "user", content := .str "hi" }] "" "").2.2.2.2.1
      (Or.inl rfl) rfl (by decide) [] rC5 [] rfl (by simp) rfl (by decide),
   (C5_resolve_priority cfgC5 msgsC5 "" "").2.2.2.2.2.1
      (Or.inl rfl) rfl (Or.inl rfl)⟩

/-! ## Claim C6 — streamed usage metering -/

/-- The accumulator loop keeps exactly the LAST observed per-chunk total
(or its starting value when none is observed). -/
theorem streamTotal_eq (lines : List SLine) (acc : Int) :
    streamTotal acc lines = (observedTotals lines).getLastD acc := by
  induction lines generalizing acc with
  | nil => rfl
  | cons l rest ih =>
    cases l with
    | notData => exact ih acc
    | done => rfl
    | malformed => exact ih acc
    | chunk u =>
      cases u with
      | absent => exact ih acc
      | present t =>
        rw [show observedTotals (SLine.chunk (.present t) :: rest)
              = t.getD 0 :: observedTotals rest from rfl,
          List.getLastD_cons]
        exact ih (t.getD 0)

/-- C6 (amended): after a completed stream exactly one usage record is
written, with `input_tokens = 0` and both `output_tokens` and
`total_tokens` equal to the LAST `usage.total_tokens` value observed in a
chunk with a truthy usage object (0 when the field is missing there, and 0
when no such chunk was seen) — the last value, not the largest one the
claim states. -/
theorem C6_stream_record (lines : List SLine) :
    streamRecord lines
      = { input_tokens := 0,
          output_tokens := (observedTotals lines).getLastD 0,
          total_tokens := (observedTotals lines).getLastD 0 } := by
  rw [streamRecord, streamTotal_eq]

/-- C6 counterexample: two chunks reporting totals 5 then 3 — the code
records `output_tokens = 3` (the last value), while the claim demands the
largest one, 5. -/
theorem C6_counterexample :
    (streamRecord [.chunk (.present (some 5)),
        .chunk (.present (some 3))]).output_tokens = 3
    ∧ specMaxTotalSeen [.chunk (.present (some 5)),
        .chunk (.present (some 3))] = 5
    ∧ (3 : Int) ≠ 5 := by
  decide

/-! ## Claim C7 — aggregates over an empty slice -/

/-- A concrete usage row belonging to session `"a"`. -/
def rowEx : URow :=
  { api_key := "k", model := "m", input_tokens := 3, output_tokens := 4,
    total_tokens := 7, latency_ms := 12, session_id := some "a", timestamp := 5 }

/-- C7: on an empty slice `get_usage_by_session` returns zero for COUNT and
the COALESCE'd SUM/AVG fields, but `MIN(timestamp)` and `MAX(timestamp)`
come back NULL (`none`), not zero — the code omits COALESCE on them, against
the spec's "all aggregates must return zeros (not null)"; `get_usage_by_key`
by contrast is all zeros. -/
theorem C7_empty_slice_nulls :
    getUsageBySession [rowEx] "b"
      = { request_count := 0, total_input := 0, total_output := 0,
          total_tokens := 0, avg_latency_ms := 0,
          first_request := none, last_request := none }
    ∧ (∀ q : ℚ, (getUsageBySession [rowEx] "b").first_request ≠ some q)
    ∧ getUsageByKey [rowEx] "other" 0
      = { request_count := 0, total_input := 0, total_output := 0,
          total_tokens := 0, avg_latency_ms := 0 } :=
  ⟨rfl, fun _ h => Option.noConfusion h, rfl⟩

/-! ## Claim C8 — session get at the TTL boundary -/

/-- C8: reading a session whose idle age is exactly `TTL` returns none and
deletes it inline; reading at idle age strictly below `TTL` returns the
session with `last_accessed` refreshed to the current time and its messages
unchanged. -/
theorem C8_get_ttl_boundary (ttl now : ℚ) (store : Store) (sid : String)
    (s : Session) (hs : store sid = some s) :
    (now - s.last_accessed = ttl →
      smGet ttl now store sid = (none, storeDel store sid)
      ∧ (storeDel store sid) sid = none)
    ∧ (now - s.last_accessed < ttl →
      smGet ttl now store sid
        = (some (s.touch now), storeSet store sid (s.touch now))
      ∧ (s.touch now).last_accessed = now
      ∧ (s.touch now).messages = s.messages) := by
  constructor
  · intro h
    constructor
    · simp only [smGet, hs]
      rw [if_neg (by rw [h]; exact lt_irrefl ttl)]
    · simp [storeDel]
  · intro h
    refine ⟨?_, rfl, rfl⟩
    simp only [smGet, hs, if_pos h]

/-- The concrete session used by witnesses: one stored user message,
last accessed at time 0. -/
def sess0 : Session :=
  { messages := [msgU1], created_at := 0, last_accessed := 0, api_key := "k" }

/-- A concrete store holding `sess0` under id `"s1"`. -/
def storeW : Store := fun k => if k == "s1" then some sess0 else none

/-- C8 witness: with `TTL = 10` and `last_accessed = 0`, a read at `t = 10`
(idle exactly TTL) evicts and returns none; a read at `t = 5` returns the
session touched to 5. -/
theorem C8_get_ttl_boundary_witness :
    (smGet 10 10 storeW "s1" = (none, storeDel storeW "s1")
      ∧ (storeDel storeW "s1") "s1" = none)
    ∧ (smGet 10 5 storeW "s1"
        = (some (sess0.touch 5), storeSet storeW "s1" (sess0.touch 5))
      ∧ (sess0.touch 5).last_accessed = 5
      ∧ (sess0.touch 5).messages = sess0.messages) :=
  ⟨(C8_get_ttl_boundary 10 10 storeW "s1" sess0 rfl).1 (by norm_num [sess0]),
   (C8_get_ttl_boundary 10 5 storeW "s1" sess0 rfl).2 (by norm_num [sess0])⟩

/-! ## Claim C9 — key masking in list_keys -/

/-- C9 (amended): every record returned by `list_keys` carries the masked
form `key[:8] + "..." + key[-4:]`, and for keys of length at least 13 that
contain no `'.'` character the full key never occurs inside the masked
string.  (Keys of length at most 12 are fully recoverable from the mask —
see the counterexample — so the claim's "never exposes the full key" needs
the length proviso.) -/
theorem C9_list_keys_masking (ks : List AKey) :
    (listKeys ks).map (fun r => r.key) = ks.map (fun k => maskKey k.key)
    ∧ ∀ k ∈ ks, 13 ≤ k.key.length → ('.' ∉ k.key) →
        ¬ containsSeq k.key (maskKey k.key) := by
  constructor
  · rw [listKeys, List.map_map]
    rfl
  · rintro k _ hlen hdot ⟨s, t, h⟩
    have hml : (maskKey k.key).length = 15 := by
      rw [maskKey]
      simp only [List.length_append, List.length_take, List.length_drop,
        List.length_cons, List.length_nil]
      omega
    have hlens : s.length + k.key.length + t.length = 15 := by
      have h' := congrArg List.length h
      simp only [List.length_append, hml] at h'
      omega
    have hcky : List.count '.' k.key = 0 := List.count_eq_zero.mpr hdot
    have htake : List.count '.' (k.key.take 8) = 0 :=
      List.count_eq_zero.mpr
        (fun hm => hdot ((List.take_sublist 8 k.key).subset hm))
    have hdrop : List.count '.' (k.key.drop (k.key.length - 4)) = 0 :=
      List.count_eq_zero.mpr
        (fun hm => hdot ((List.drop_sublist _ k.key).subset hm))
    have hcr : List.count '.' (maskKey k.key) = 3 := by
      rw [maskKey]
      simp [List.count_append, List.count_cons, htake, hdrop]
    have hcl : List.count '.' s + List.count '.' k.key + List.count '.' t = 3 := by
      have h' := congrArg (List.count '.') h
      simp only [List.count_append, hcr] at h'
      omega
    have hsl := List.count_le_length '.' s
    have htl := List.count_le_length '.' t
    omega

/-- A short stored API key, three characters long. -/
def akShort : AKey :=
  { key := ['a', 'b', 'c'], owner := "o", tier := "standard",
    rpm_limit := 60, tpm_limit := 100000, created_at := 0, active := true }

/-- C9 counterexample: for the three-character key `abc` the masked record
is `abc...abc` — the full key occurs verbatim inside it, so `list()` does
expose the full key string for short keys. -/
theorem C9_counterexample :
    (listKeys [akShort]).map (fun r => r.key) = [maskKey ['a', 'b', 'c']]
    ∧ containsSeq ['a', 'b', 'c'] (maskKey ['a', 'b', 'c']) :=
  ⟨rfl, ⟨[], ['.', '.', '.', 'a', 'b', 'c'], rfl⟩⟩

/-- A 13-character dot-free stored API key. -/
def ak13 : AKey :=
  { key := ['g', 'k', '0', '1', '2', '3', '4', '5', '6', '7', '8', '9', 'x'],
    owner := "o", tier := "standard", rpm_limit := 60, tpm_limit := 100000,
    created_at := 0, active := true }

/-- C9 witness: the 13-character key is masked and does not occur inside its
masked record. -/
theorem C9_list_keys_masking_witness :
    (listKeys [ak13]).map (fun r => r.key) = [ak13].map (fun k => maskKey k.key)
    ∧ ¬ containsSeq ak13.key (maskKey ak13.key) :=
  ⟨(C9_list_keys_masking [ak13]).1,
   (C9_list_keys_masking [ak13]).2 ak13 (List.mem_singleton.mpr rfl)
     (by decide) (by decide)⟩

/-! ## Claim C10 — expired sessions still feed the pipeline -/

/-- C10: for a session still present in the store whose idle age is at or
past `TTL`, `get_history` still returns its stored messages; the chat
pipeline (`get_or_create` then `inject_history`) never checks expiry, so the
expired history is merged into the forwarded message list; and the touch
performed by `get_or_create` resurrects the session — a later `get` within
`TTL` of the touch returns it. -/
theorem C10_expired_session_leak (ttl now now' : ℚ) (store : Store)
    (sid key : String) (s : Session) (req : List SMsg)
    (hs : store sid = some s) (_hexp : ttl ≤ now - s.last_accessed)
    (hne : s.messages ≠ []) :
    (smGetHistory now store sid).1 = s.messages
    ∧ ((smGetOrCreate now store sid key).2) sid = some (s.touch now)
    ∧ (smInjectHistory now ((smGetOrCreate now store sid key).2) sid req).1
        = req.filter isSystem
          ++ s.messages.filter (fun m => !(isSystem m))
          ++ req.filter (fun m => !(isSystem m))
    ∧ (now' - now < ttl →
        ((smGet ttl now' ((smGetOrCreate now store sid key).2) sid).1).isSome
          = true) := by
  have hstore1 : ((smGetOrCreate now store sid key).2) sid = some (s.touch now) := by
    simp only [smGetOrCreate, hs]
    simp [storeSet]
  refine ⟨?_, hstore1, ?_, ?_⟩
  · simp only [smGetHistory, hs]
  · simp only [smInjectHistory, smGetHistory, hstore1]
    show injectHistoryList (s.touch now).messages req = _
    rw [injectHistoryList, if_neg (by simpa [Session.touch] using hne)]
    rfl
  · intro hfresh
    simp only [smGet, hstore1]
    rw [if_pos (by simpa [Session.touch] using hfresh)]
    rfl

/-- C10 witness: `TTL = 10`, session last touched at 0, pipeline runs at
`t = 20` (idle 20 ≥ TTL): the history `[user b]` is returned and merged
behind the incoming system message, and a `get` at `t = 25` finds the
resurrected session. -/
theorem C10_expired_session_leak_witness :
    ((smGetHistory 20 storeW "s1").1 = sess0.messages
    ∧ ((smGetOrCreate 20 storeW "s1" "k").2) "s1" = some (sess0.touch 20)
    ∧ (smInjectHistory 20 ((smGetOrCreate 20 storeW "s1" "k").2) "s1"
          [msgSys, msgU2]).1
        = ([msgSys, msgU2] : List SMsg).filter isSystem
          ++ sess0.messages.filter (fun m => !(isSystem m))
          ++ ([msgSys, msgU2] : List SMsg).filter (fun m => !(isSystem m)))
    ∧ ((smGet 10 25 ((smGetOrCreate 20 storeW "s1" "k").2) "s1").1).isSome
        = true := by
  have h := C10_expired_session_leak 10 20 25 storeW "s1" "k" sess0
    [msgSys, msgU2] rfl (by norm_num [sess0]) (by decide)
  exact ⟨⟨h.1, h.2.1, h.2.2.1⟩, h.2.2.2 (by norm_num)⟩
